import Mathlib

/-
Verification of the budget-reallocation helpers in
ad_ops_helper_functions.py (functions get_num_flights, get_budget,
update_flight_level_budgets, update_budgets, clean_and_convert_budgets).

Embedding conventions:
* A pandas DataFrame of flight rows is a `FlightTable`: a list of column
  names (governing `KeyError` behaviour) together with a list of records.
  The `Budget` cell of a flight row is a `PyFloat`: either a finite
  rational, `nan` (pandas null), or a signed infinity (numpy division by a
  zero count produces these).
* The package-budget DataFrame is a `BudgetTable`.  Its dynamically named
  columns `Header_<d>` / `Values_<d>` are modelled by per-row functions
  from the date suffix `d` to the cell contents; which such columns exist
  is recorded in `cols`.  `Values` cells are `Option ℚ` (a finite number
  or pandas null), matching the output of `pd.to_numeric` on cleaned data;
  `Header` cells are `Option String` (null compares unequal to anything).
* `Series.count()` counts non-null entries; `Series.sum()` skips nulls and
  returns 0 on an empty selection; these semantics are built into
  `countMatchingNonNull` and `sumMatchingValues`.
* Division `budget / num_flights` is numpy true division of a scalar by a
  (possibly zero) integer count: it never raises, and a zero divisor
  yields nan (for a zero numerator) or a signed infinity (`pyDivNat`).
* Accessing a missing column raises `KeyError` (`PyError.keyError`);
  fallible operations return `Except PyError`.  Assigning through
  `df.loc[mask, 'Budget']` when the `Budget` column is absent performs
  pandas setting-with-enlargement: the column is created (null outside the
  mask) and no error is raised.
* `update_budgets` runs `list(set(...))` on both identifier lists and then
  a nested loop; this is modelled as deduplication (`List.dedup`) followed
  by a left-to-right run over the Cartesian product, with the first error
  aborting the run exactly as a Python exception would.
* `clean_and_convert_budgets` applies, per column, the regex deletion
  `str.replace(r'[\s\$-,]', '')` followed by `pd.to_numeric(errors =
  'coerce')`; the regex class is ASCII whitespace together with the
  character range from '$' (0x24) to ',' (0x2C), and the numeric parse is
  modelled for optionally signed decimal literals.
-/

namespace AdOps

/-- Numeric cell contents as produced by pandas/numpy arithmetic: a finite
rational, the null/NaN marker, or a signed infinity. -/
inductive PyFloat where
  | nan : PyFloat
  | inf : PyFloat
  | ninf : PyFloat
  | fin : ℚ → PyFloat
deriving Repr, DecidableEq

/-- Errors surfaced by the embedded operations: pandas raises `KeyError`
with the missing column name when a required column is absent. -/
inductive PyError where
  | keyError : String → PyError
deriving Repr, DecidableEq

/-- One row of the flight-level DataFrame (df1).  `other` stands for all
remaining columns of the row, which the reallocation never inspects. -/
structure FlightRow where
  packageName : String
  startDate : String
  budget : PyFloat
  other : String
deriving Repr, DecidableEq

/-- The flight-level DataFrame: its set of column names plus its rows. -/
structure FlightTable where
  cols : List String
  rows : List FlightRow
deriving Repr, DecidableEq

/-- One row of the package-budget DataFrame (df2).  `header d` is the cell
of column `Header_<d>`, `values d` the cell of column `Values_<d>`;
whether such columns exist at all is recorded in `BudgetTable.cols`. -/
structure BudgetRow where
  packageName : String
  header : String → Option String
  values : String → Option ℚ

/-- The package-budget DataFrame: its column names plus its rows. -/
structure BudgetTable where
  cols : List String
  rows : List BudgetRow

/-- The row mask `(df['Package Name'] == package) & (df['Start Date'] ==
start_date)` used by get_num_flights and update_flight_level_budgets. -/
def flightMatches (r : FlightRow) (package start_date : String) : Bool :=
  r.packageName == package && r.startDate == start_date

/-- The value `.count()` computes on the masked `Budget` column: the
number of matching rows whose Budget cell is non-null. -/
def countMatchingNonNull (t : FlightTable) (package start_date : String) : ℕ :=
  t.rows.countP (fun r => flightMatches r package start_date && !(r.budget == PyFloat.nan))

/-- get_num_flights: masks on Package Name and Start Date and counts the
non-null entries of the masked Budget column; a missing column raises
KeyError (columns are touched in source evaluation order). -/
def get_num_flights (t : FlightTable) (package start_date : String) : Except PyError ℕ :=
  if "Package Name" ∈ t.cols then
    if "Start Date" ∈ t.cols then
      if "Budget" ∈ t.cols then
        Except.ok (countMatchingNonNull t package start_date)
      else Except.error (PyError.keyError "Budget")
    else Except.error (PyError.keyError "Start Date")
  else Except.error (PyError.keyError "Package Name")

/-- The row mask `(df['Package Name'] == package) & (df[header_start_date]
== start_date)` used by get_budget. -/
def budgetRowMatches (r : BudgetRow) (package start_date : String) : Bool :=
  r.packageName == package && r.header start_date == some start_date

/-- The value `.sum()` computes on the masked `Values_<start_date>`
column: null cells are skipped, and an empty selection sums to 0. -/
def sumMatchingValues (t : BudgetTable) (package start_date : String) : ℚ :=
  (((t.rows.filter (fun r => budgetRowMatches r package start_date)).filterMap
    (fun r => r.values start_date))).sum

/-- get_budget: builds the dynamic column names `Header_<start_date>` and
`Values_<start_date>`, masks on Package Name and the header column, and
sums the value column; a missing column raises KeyError. -/
def get_budget (t : BudgetTable) (package start_date : String) : Except PyError ℚ :=
  if "Package Name" ∈ t.cols then
    if ("Header_" ++ start_date) ∈ t.cols then
      if ("Values_" ++ start_date) ∈ t.cols then
        Except.ok (sumMatchingValues t package start_date)
      else Except.error (PyError.keyError ("Values_" ++ start_date))
    else Except.error (PyError.keyError ("Header_" ++ start_date))
  else Except.error (PyError.keyError "Package Name")

/-- The per-row effect of the `.loc` assignment in
update_flight_level_budgets: matching rows get the new Budget value. -/
def setBudget (r : FlightRow) (package start_date : String) (v : PyFloat) : FlightRow :=
  if flightMatches r package start_date then { r with budget := v } else r

/-- update_flight_level_budgets: `df.loc[mask, 'Budget'] = value`.  The
mask columns must exist (KeyError otherwise); if the Budget column itself
is absent, pandas setting-with-enlargement appends it, filling null
outside the mask, and no error is raised. -/
def update_flight_level_budgets (t : FlightTable) (package start_date : String)
    (v : PyFloat) : Except PyError FlightTable :=
  if "Package Name" ∈ t.cols then
    if "Start Date" ∈ t.cols then
      if "Budget" ∈ t.cols then
        Except.ok { cols := t.cols,
                    rows := t.rows.map (fun r => setBudget r package start_date v) }
      else
        Except.ok { cols := t.cols ++ ["Budget"],
                    rows := t.rows.map (fun r =>
                      if flightMatches r package start_date then { r with budget := v }
                      else { r with budget := PyFloat.nan }) }
    else Except.error (PyError.keyError "Start Date")
  else Except.error (PyError.keyError "Package Name")

/-- Numpy true division of a finite scalar by a nonnegative integer count:
never raises; a zero divisor yields nan when the numerator is 0 and a
signed infinity otherwise. -/
def pyDivNat (b : ℚ) (n : ℕ) : PyFloat :=
  if n = 0 then
    if b = 0 then PyFloat.nan
    else if 0 < b then PyFloat.inf
    else PyFloat.ninf
  else PyFloat.fin (b / n)

/-- One iteration of the nested loop body of update_budgets: count, sum,
divide, write back.  Errors propagate in source evaluation order. -/
def processPair (df2 : BudgetTable) (df1 : FlightTable)
    (package start_date : String) : Except PyError FlightTable :=
  match get_num_flights df1 package start_date with
  | Except.error e => Except.error e
  | Except.ok num_flights =>
    match get_budget df2 package start_date with
    | Except.error e => Except.error e
    | Except.ok budget =>
      update_flight_level_budgets df1 package start_date (pyDivNat budget num_flights)

/-- Runs the loop body over a list of (package, start_date) pairs, threading
the flight table and aborting on the first error, exactly as the Python
exception would abort both loops. -/
def runPairs (df2 : BudgetTable) (L : List (String × String))
    (t : FlightTable) : Except PyError FlightTable :=
  match L with
  | [] => Except.ok t
  | pr :: rest =>
    match processPair df2 t pr.1 pr.2 with
    | Except.error e => Except.error e
    | Except.ok t1 => runPairs df2 rest t1

/-- The Cartesian product traversed by the nested `for` loops, outer list
first. -/
def pairsOf (ps ds : List String) : List (String × String) :=
  ps.flatMap (fun p => ds.map (fun d => (p, d)))

/-- update_budgets: deduplicates both identifier lists (`list(set(...))`)
and runs the loop body over every (package, start_date) combination,
mutating df1 as it goes and returning it. -/
def update_budgets (df1 : FlightTable) (df2 : BudgetTable)
    (packages_to_process start_dates : List String) : Except PyError FlightTable :=
  runPairs df2 (pairsOf packages_to_process.dedup start_dates.dedup) df1

/-- The pure effect of one successful loop iteration on the flight table
(the value written is computed from the current table state). -/
def applyPair (df2 : BudgetTable) (t : FlightTable) (pr : String × String) : FlightTable :=
  { cols := t.cols,
    rows := t.rows.map (fun r => setBudget r pr.1 pr.2
      (pyDivNat (sumMatchingValues df2 pr.1 pr.2) (countMatchingNonNull t pr.1 pr.2))) }

/-- The pure effect of a successful run over a whole pair list. -/
def applyPairs (df2 : BudgetTable) (L : List (String × String))
    (t : FlightTable) : FlightTable :=
  L.foldl (applyPair df2) t

/-- All three columns read by get_num_flights are present. -/
def flightColsOK (t : FlightTable) : Prop :=
  "Package Name" ∈ t.cols ∧ "Start Date" ∈ t.cols ∧ "Budget" ∈ t.cols

/-- The columns read by get_budget for the given start date are present. -/
def budgetColsOK (t : BudgetTable) (start_date : String) : Prop :=
  "Package Name" ∈ t.cols ∧ ("Header_" ++ start_date) ∈ t.cols ∧
    ("Values_" ++ start_date) ∈ t.cols

/-- ASCII whitespace matched by the regex class `\s` (the Unicode
whitespace also matched by Python is irrelevant to the cleaned data). -/
def pyIsSpace (c : Char) : Bool :=
  c = ' ' || c = '\t' || c = '\n' || c = '\r' || c = '\x0b' || c = '\x0c'

/-- Membership in the regex character class `[\s\$-,]`: whitespace or the
character range from '$' (code 36) to ',' (code 44). -/
def stripChar (c : Char) : Bool :=
  pyIsSpace c || (decide (36 ≤ c.toNat) && decide (c.toNat ≤ 44))

/-- The effect of `str.replace(r'[\s\$-,]', '', regex=True)` on one cell:
every character of the class is deleted. -/
def cleanBudgetString (s : String) : String :=
  String.mk (s.data.filter (fun c => !stripChar c))

/-- Numeric value of a digit string, most significant digit first. -/
def natOfDigits (l : List Char) : ℕ :=
  l.foldl (fun n c => 10 * n + (c.toNat - 48)) 0

/-- Unsigned decimal literal accepted by `pd.to_numeric`: digits with an
optional decimal point somewhere (at least one digit overall). -/
def parseUnsignedNumeric (l : List Char) : Option ℚ :=
  match l.span Char.isDigit with
  | (intPart, rest) =>
    match rest with
    | [] => if intPart.isEmpty then none else some (natOfDigits intPart)
    | c :: frac =>
      if c = '.' ∧ frac.all Char.isDigit = true ∧
          (intPart.isEmpty = false ∨ frac.isEmpty = false) then
        some ((natOfDigits intPart : ℚ) + (natOfDigits frac : ℚ) / ((10 : ℚ) ^ frac.length))
      else none

/-- Model of `pd.to_numeric(cell, errors='coerce')` on a string cell,
restricted to optionally signed decimal literals: anything else coerces to
null (NaN). -/
def parseNumeric (s : String) : Option ℚ :=
  match s.data with
  | '-' :: rest => (parseUnsignedNumeric rest).map (fun q => -q)
  | '+' :: rest => parseUnsignedNumeric rest
  | l => parseUnsignedNumeric l

/-- clean_and_convert_budgets, per processed column: each cell is stripped
of the regex class characters and then coerced to a number or null.  (The
source loops this over every listed column of the DataFrame.) -/
def clean_and_convert_budgets (column : List String) : List (Option ℚ) :=
  column.map (fun s => parseNumeric (cleanBudgetString s))

/-- Package-budget table used in concrete runs: package P1 carries 100 for
start date D1 in the sparse wide layout. -/
def sampleBudgetRow : BudgetRow :=
  { packageName := "P1",
    header := fun d => if d = "D1" then some "D1" else none,
    values := fun d => if d = "D1" then some 100 else none }

/-- Budget table with the Header_D1 and Values_D1 columns and one P1 row. -/
def sampleBudgetTable : BudgetTable :=
  { cols := ["Package Name", "Header_D1", "Values_D1"],
    rows := [sampleBudgetRow] }

/-- Flight table with two rows for (P1, D1), one of them with a null
Budget cell. -/
def flightsTwoOneNull : FlightTable :=
  { cols := ["Package Name", "Start Date", "Budget"],
    rows := [⟨"P1", "D1", PyFloat.fin 0, "a"⟩, ⟨"P1", "D1", PyFloat.nan, "b"⟩] }

/-- Flight table with a single (P1, D1) row with Budget 0. -/
def flightsSingle : FlightTable :=
  { cols := ["Package Name", "Start Date", "Budget"],
    rows := [⟨"P1", "D1", PyFloat.fin 0, "a"⟩] }

/-- Flight table whose only (P1, D1) row has a null Budget cell. -/
def flightsNullOnly : FlightTable :=
  { cols := ["Package Name", "Start Date", "Budget"],
    rows := [⟨"P1", "D1", PyFloat.nan, "a"⟩] }

/-- Package-budget table carrying 100 for (P2, D1). -/
def budgetTableP2 : BudgetTable :=
  { cols := ["Package Name", "Header_D1", "Values_D1"],
    rows := [{ packageName := "P2",
               header := fun d => if d = "D1" then some "D1" else none,
               values := fun d => if d = "D1" then some 100 else none }] }

/-- Flight table whose only (P2, D1) row has a null Budget cell. -/
def flightsP2Null : FlightTable :=
  { cols := ["Package Name", "Start Date", "Budget"],
    rows := [⟨"P2", "D1", PyFloat.nan, "a"⟩] }

/-- Flight table lacking the Budget column (its rows' budget field is a
placeholder; the column list is authoritative). -/
def flightsNoBudgetCol : FlightTable :=
  { cols := ["Package Name", "Start Date"],
    rows := [⟨"P1", "D1", PyFloat.fin 7, "x"⟩] }

/-- Result of reallocating flightsSingle against sampleBudgetTable. -/
def outSingle : FlightTable :=
  { cols := ["Package Name", "Start Date", "Budget"],
    rows := [⟨"P1", "D1", PyFloat.fin 100, "a"⟩] }

/-- Result of one reallocation run on flightsTwoOneNull: the null-Budget
row is excluded from the divisor (count 1), so both rows get 100. -/
def outReallocOnce : FlightTable :=
  { cols := ["Package Name", "Start Date", "Budget"],
    rows := [⟨"P1", "D1", PyFloat.fin 100, "a"⟩, ⟨"P1", "D1", PyFloat.fin 100, "b"⟩] }

/-- Result of a second reallocation run on outReallocOnce: now both rows
count (divisor 2), so both get 50. -/
def outReallocTwice : FlightTable :=
  { cols := ["Package Name", "Start Date", "Budget"],
    rows := [⟨"P1", "D1", PyFloat.fin 50, "a"⟩, ⟨"P1", "D1", PyFloat.fin 50, "b"⟩] }

/-- Result of reallocating flightsP2Null against budgetTableP2: count 0
and aggregate 100 produce the +infinity sentinel in the table. -/
def outP2Inf : FlightTable :=
  { cols := ["Package Name", "Start Date", "Budget"],
    rows := [⟨"P2", "D1", PyFloat.inf, "a"⟩] }

/-- Result of the enlarging Budget write on flightsNoBudgetCol. -/
def flightsNoBudgetColOut : FlightTable :=
  { cols := ["Package Name", "Start Date", "Budget"],
    rows := [⟨"P1", "D1", PyFloat.fin 5, "x"⟩] }

/-- Componentwise characterisation of the flight-row mask. -/
lemma flightMatches_iff {r : FlightRow} {p d : String} :
    flightMatches r p d = true ↔ r.packageName = p ∧ r.startDate = d := by
  simp [flightMatches]

/-- The mask only reads the Package Name and Start Date fields. -/
lemma flightMatches_congr {r r' : FlightRow} (h1 : r'.packageName = r.packageName)
    (h2 : r'.startDate = r.startDate) (p d : String) :
    flightMatches r' p d = flightMatches r p d := by
  simp [flightMatches, h1, h2]

/-- A row matches at most one (package, start_date) key. -/
lemma flightMatches_unique {r : FlightRow} {p d p' d' : String}
    (h : flightMatches r p d = true) (h' : flightMatches r p' d' = true) :
    p = p' ∧ d = d' := by
  rw [flightMatches_iff] at h h'
  exact ⟨h.1.symm.trans h'.1, h.2.symm.trans h'.2⟩

lemma setBudget_packageName (r : FlightRow) (p d : String) (v : PyFloat) :
    (setBudget r p d v).packageName = r.packageName := by
  unfold setBudget; split <;> rfl

lemma setBudget_startDate (r : FlightRow) (p d : String) (v : PyFloat) :
    (setBudget r p d v).startDate = r.startDate := by
  unfold setBudget; split <;> rfl

lemma setBudget_other (r : FlightRow) (p d : String) (v : PyFloat) :
    (setBudget r p d v).other = r.other := by
  unfold setBudget; split <;> rfl

lemma flightMatches_setBudget (r : FlightRow) (p' d' : String) (v : PyFloat)
    (p d : String) :
    flightMatches (setBudget r p' d' v) p d = flightMatches r p d :=
  flightMatches_congr (setBudget_packageName r p' d' v) (setBudget_startDate r p' d' v) p d

lemma setBudget_of_not_match {r : FlightRow} {p d : String}
    (h : flightMatches r p d = false) (v : PyFloat) : setBudget r p d v = r := by
  simp [setBudget, h]

lemma setBudget_budget_of_match {r : FlightRow} {p d : String}
    (h : flightMatches r p d = true) (v : PyFloat) : (setBudget r p d v).budget = v := by
  simp [setBudget, h]

/-- Record extensionality for flight tables. -/
lemma flightTableExt {t1 t2 : FlightTable} (h1 : t1.cols = t2.cols)
    (h2 : t1.rows = t2.rows) : t1 = t2 := by
  cases t1; cases t2; cases h1; cases h2; rfl

/-- Record extensionality for flight rows. -/
lemma flightRowExt {r1 r2 : FlightRow} (h1 : r1.packageName = r2.packageName)
    (h2 : r1.startDate = r2.startDate) (h3 : r1.budget = r2.budget)
    (h4 : r1.other = r2.other) : r1 = r2 := by
  cases r1; cases r2; cases h1; cases h2; cases h3; cases h4; rfl

/-- Budget writes for two distinct keys commute on every row. -/
lemma setBudget_comm {x y : String × String} (hxy : x ≠ y) (r : FlightRow)
    (a b : PyFloat) :
    setBudget (setBudget r x.1 x.2 a) y.1 y.2 b =
      setBudget (setBudget r y.1 y.2 b) x.1 x.2 a := by
  cases hmx : flightMatches r x.1 x.2 with
  | false =>
    have h2 : flightMatches (setBudget r y.1 y.2 b) x.1 x.2 = false := by
      rw [flightMatches_setBudget]; exact hmx
    rw [setBudget_of_not_match hmx a, setBudget_of_not_match h2 a]
  | true =>
    have hmy : flightMatches r y.1 y.2 = false := by
      cases hy : flightMatches r y.1 y.2
      · rfl
      · obtain ⟨e1, e2⟩ := flightMatches_unique hmx hy
        exact absurd (Prod.ext e1 e2) hxy
    have h2 : flightMatches (setBudget r x.1 x.2 a) y.1 y.2 = false := by
      rw [flightMatches_setBudget]; exact hmy
    rw [setBudget_of_not_match h2 b, setBudget_of_not_match hmy b]

lemma applyPair_cols (df2 : BudgetTable) (t : FlightTable) (pr : String × String) :
    (applyPair df2 t pr).cols = t.cols := rfl

lemma applyPair_rows (df2 : BudgetTable) (t : FlightTable) (pr : String × String) :
    (applyPair df2 t pr).rows = t.rows.map (fun r => setBudget r pr.1 pr.2
      (pyDivNat (sumMatchingValues df2 pr.1 pr.2) (countMatchingNonNull t pr.1 pr.2))) := rfl

/-- Updating one key leaves the non-null count of any other key unchanged. -/
lemma countMatchingNonNull_applyPair (df2 : BudgetTable) (t : FlightTable)
    (x : String × String) (p d : String) (hne : x ≠ (p, d)) :
    countMatchingNonNull (applyPair df2 t x) p d = countMatchingNonNull t p d := by
  unfold countMatchingNonNull
  rw [applyPair_rows, List.countP_map]
  apply List.countP_congr
  intro r hr
  cases hm : flightMatches r p d with
  | false => simp [Function.comp, flightMatches_setBudget, hm]
  | true =>
    have hx : flightMatches r x.1 x.2 = false := by
      cases hx2 : flightMatches r x.1 x.2
      · rfl
      · obtain ⟨e1, e2⟩ := flightMatches_unique hx2 hm
        exact absurd (Prod.ext e1 e2) hne
    simp [Function.comp, setBudget_of_not_match hx, hm]

/-- Successful loop iterations for two keys commute. -/
lemma applyPair_comm (df2 : BudgetTable) (t : FlightTable) (x y : String × String) :
    applyPair df2 (applyPair df2 t x) y = applyPair df2 (applyPair df2 t y) x := by
  by_cases hxy : x = y
  · rw [hxy]
  · have hyx : y ≠ x := fun h => hxy h.symm
    have hxy2 : x ≠ (y.1, y.2) := fun h => hxy (h.trans rfl)
    have hyx2 : y ≠ (x.1, x.2) := fun h => hyx (h.trans rfl)
    apply flightTableExt
    · rfl
    · rw [applyPair_rows, applyPair_rows, applyPair_rows, applyPair_rows,
        countMatchingNonNull_applyPair df2 t x y.1 y.2 hxy2,
        countMatchingNonNull_applyPair df2 t y x.1 x.2 hyx2,
        List.map_map, List.map_map]
      apply List.map_congr_left
      intro r hr
      exact setBudget_comm hxy r _ _

lemma applyPairs_nil (df2 : BudgetTable) (t : FlightTable) :
    applyPairs df2 [] t = t := rfl

lemma applyPairs_cons (df2 : BudgetTable) (x : String × String)
    (L : List (String × String)) (t : FlightTable) :
    applyPairs df2 (x :: L) t = applyPairs df2 L (applyPair df2 t x) := rfl

lemma applyPairs_cols (df2 : BudgetTable) :
    ∀ (L : List (String × String)) (t : FlightTable),
      (applyPairs df2 L t).cols = t.cols := by
  intro L
  induction L with
  | nil => intro t; rfl
  | cons x L ih => intro t; rw [applyPairs_cons, ih, applyPair_cols]

/-- The pure run is invariant under permutation of the key list. -/
lemma applyPairs_perm (df2 : BudgetTable) {L L' : List (String × String)}
    (h : L.Perm L') : ∀ t, applyPairs df2 L t = applyPairs df2 L' t := by
  induction h with
  | nil => intro t; rfl
  | cons x h ih => intro t; rw [applyPairs_cons, applyPairs_cons, ih]
  | swap x y l => intro t; rw [applyPairs_cons, applyPairs_cons, applyPairs_cons,
      applyPairs_cons, applyPair_comm]
  | trans h1 h2 ih1 ih2 => intro t; rw [ih1, ih2]

/-- Row-level description of a successful pure run over a duplicate-free
key list: rows are transformed pointwise; non-Budget fields survive; rows
matched by no processed key keep their Budget; rows matched by a processed
key (p, d) end with the aggregate of (p, d) divided by the non-null count
of (p, d) in the table the run started from. -/
lemma applyPairs_spec (df2 : BudgetTable) :
    ∀ (L : List (String × String)) (t : FlightTable), L.Nodup →
    ∃ g : FlightRow → FlightRow,
      (applyPairs df2 L t).rows = t.rows.map g ∧
      (∀ r, (g r).packageName = r.packageName ∧ (g r).startDate = r.startDate ∧
        (g r).other = r.other) ∧
      (∀ r, (∀ pr ∈ L, flightMatches r pr.1 pr.2 = false) → (g r).budget = r.budget) ∧
      (∀ r p d, flightMatches r p d = true → (p, d) ∈ L →
        (g r).budget = pyDivNat (sumMatchingValues df2 p d) (countMatchingNonNull t p d)) := by
  intro L
  induction L with
  | nil =>
    intro t _
    exact ⟨id, by rw [applyPairs_nil, List.map_id], fun r => ⟨rfl, rfl, rfl⟩,
      fun r _ => rfl, fun r p d _ h => absurd h (List.not_mem_nil _)⟩
  | cons x L ih =>
    intro t hnd
    rw [List.nodup_cons] at hnd
    obtain ⟨hx, hndL⟩ := hnd
    obtain ⟨g, hrows, hshape, hun, hm⟩ := ih (applyPair df2 t x) hndL
    refine ⟨fun r => g (setBudget r x.1 x.2
      (pyDivNat (sumMatchingValues df2 x.1 x.2) (countMatchingNonNull t x.1 x.2))), ?_, ?_, ?_, ?_⟩
    · rw [applyPairs_cons, hrows, applyPair_rows, List.map_map]
      rfl
    · intro r
      refine ⟨(hshape _).1.trans (setBudget_packageName r x.1 x.2 _), ?_, ?_⟩
      · exact (hshape _).2.1.trans (setBudget_startDate r x.1 x.2 _)
      · exact (hshape _).2.2.trans (setBudget_other r x.1 x.2 _)
    · intro r hall
      have hxm : flightMatches r x.1 x.2 = false := hall x (List.mem_cons_self x L)
      show (g (setBudget r x.1 x.2 (pyDivNat (sumMatchingValues df2 x.1 x.2)
        (countMatchingNonNull t x.1 x.2)))).budget = r.budget
      rw [setBudget_of_not_match hxm]
      exact hun r (fun pr hpr => hall pr (List.mem_cons_of_mem x hpr))
    · intro r p d hmatch hmem
      show (g (setBudget r x.1 x.2 (pyDivNat (sumMatchingValues df2 x.1 x.2)
        (countMatchingNonNull t x.1 x.2)))).budget =
          pyDivNat (sumMatchingValues df2 p d) (countMatchingNonNull t p d)
      rcases List.mem_cons.mp hmem with he | hmemL
      · have hex : x = (p, d) := he.symm
        have hxm : flightMatches r x.1 x.2 = true := by rw [hex]; exact hmatch
        have hnoL : ∀ pr ∈ L, flightMatches
            (setBudget r x.1 x.2 (pyDivNat (sumMatchingValues df2 x.1 x.2)
              (countMatchingNonNull t x.1 x.2))) pr.1 pr.2 = false := by
          intro pr hpr
          rw [flightMatches_setBudget]
          cases hc : flightMatches r pr.1 pr.2
          · rfl
          · obtain ⟨e1, e2⟩ := flightMatches_unique hmatch hc
            have hprx : x = pr := by rw [hex]; exact (Prod.ext e1.symm e2.symm).symm
            exact absurd (hprx ▸ hpr) hx
        rw [hun _ hnoL, setBudget_budget_of_match hxm, hex]
      · have hxne : x ≠ (p, d) := fun he2 => hx (he2 ▸ hmemL)
        have hxm : flightMatches r x.1 x.2 = false := by
          cases hc : flightMatches r x.1 x.2
          · rfl
          · obtain ⟨e1, e2⟩ := flightMatches_unique hc hmatch
            exact absurd (Prod.ext e1 e2) hxne
        rw [setBudget_of_not_match hxm, hm r p d hmatch hmemL,
          countMatchingNonNull_applyPair df2 t x p d hxne]

/-- get_num_flights succeeds exactly when its three columns are present. -/
lemma get_num_flights_eq {t : FlightTable} (h : flightColsOK t) (p d : String) :
    get_num_flights t p d = Except.ok (countMatchingNonNull t p d) := by
  obtain ⟨h1, h2, h3⟩ := h
  unfold get_num_flights
  rw [if_pos h1, if_pos h2, if_pos h3]

lemma get_num_flights_ok_inv {t : FlightTable} {p d : String} {n : ℕ}
    (h : get_num_flights t p d = Except.ok n) :
    flightColsOK t ∧ n = countMatchingNonNull t p d := by
  unfold get_num_flights at h
  split_ifs at h with h1 h2 h3
  exact ⟨⟨h1, h2, h3⟩, (Except.ok.inj h).symm⟩

/-- get_budget succeeds exactly when its three columns are present. -/
lemma get_budget_eq {df2 : BudgetTable} {d : String} (h : budgetColsOK df2 d)
    (p : String) :
    get_budget df2 p d = Except.ok (sumMatchingValues df2 p d) := by
  obtain ⟨h1, h2, h3⟩ := h
  unfold get_budget
  rw [if_pos h1, if_pos h2, if_pos h3]

lemma get_budget_ok_inv {df2 : BudgetTable} {p d : String} {b : ℚ}
    (h : get_budget df2 p d = Except.ok b) :
    budgetColsOK df2 d ∧ b = sumMatchingValues df2 p d := by
  unfold get_budget at h
  split_ifs at h with h1 h2 h3
  exact ⟨⟨h1, h2, h3⟩, (Except.ok.inj h).symm⟩

/-- With all three columns present the write takes the in-place branch. -/
lemma update_flight_level_budgets_eq {t : FlightTable} (h : flightColsOK t)
    (p d : String) (v : PyFloat) :
    update_flight_level_budgets t p d v =
      Except.ok { cols := t.cols, rows := t.rows.map (fun r => setBudget r p d v) } := by
  obtain ⟨h1, h2, h3⟩ := h
  unfold update_flight_level_budgets
  rw [if_pos h1, if_pos h2, if_pos h3]

/-- A loop iteration with all columns present performs the pure update. -/
lemma processPair_eq (df2 : BudgetTable) (t : FlightTable) (p d : String)
    (hF : flightColsOK t) (hB : budgetColsOK df2 d) :
    processPair df2 t p d = Except.ok (applyPair df2 t (p, d)) := by
  unfold processPair
  rw [get_num_flights_eq hF, get_budget_eq hB]
  exact update_flight_level_budgets_eq hF p d _

lemma processPair_ok_inv {df2 : BudgetTable} {t : FlightTable} {p d : String}
    {t' : FlightTable} (h : processPair df2 t p d = Except.ok t') :
    flightColsOK t ∧ budgetColsOK df2 d ∧ t' = applyPair df2 t (p, d) := by
  unfold processPair at h
  cases hn : get_num_flights t p d with
  | error e => rw [hn] at h; exact absurd h (by simp)
  | ok n =>
    rw [hn] at h
    obtain ⟨hF, hcount⟩ := get_num_flights_ok_inv hn
    cases hb : get_budget df2 p d with
    | error e => rw [hb] at h; exact absurd h (by simp)
    | ok b =>
      rw [hb] at h
      obtain ⟨hB, hsum⟩ := get_budget_ok_inv hb
      have h2 : update_flight_level_budgets t p d (pyDivNat b n) = Except.ok t' := h
      rw [update_flight_level_budgets_eq hF p d _] at h2
      refine ⟨hF, hB, ?_⟩
      rw [← Except.ok.inj h2, hcount, hsum]
      rfl

lemma flightColsOK_applyPair {df2 : BudgetTable} {t : FlightTable}
    {pr : String × String} : flightColsOK (applyPair df2 t pr) ↔ flightColsOK t := by
  unfold flightColsOK
  rw [applyPair_cols]

lemma runPairs_ok_inv (df2 : BudgetTable) :
    ∀ (L : List (String × String)) (t t' : FlightTable),
      runPairs df2 L t = Except.ok t' →
      t' = applyPairs df2 L t ∧ (∀ pr ∈ L, budgetColsOK df2 pr.2) ∧
        (L ≠ [] → flightColsOK t) := by
  intro L
  induction L with
  | nil =>
    intro t t' h
    refine ⟨?_, by simp, by simp⟩
    have h2 : Except.ok t = Except.ok t' := h
    exact (Except.ok.inj h2).symm
  | cons pr L ih =>
    intro t t' h
    unfold runPairs at h
    cases hp : processPair df2 t pr.1 pr.2 with
    | error e => rw [hp] at h; exact absurd h (by simp)
    | ok t1 =>
      rw [hp] at h
      obtain ⟨hF, hB, ht1⟩ := processPair_ok_inv hp
      obtain ⟨h1, h2, _⟩ := ih t1 t' h
      refine ⟨?_, ?_, fun _ => hF⟩
      · rw [h1, ht1, applyPairs_cons]
      · intro pr' hpr'
        rcases List.mem_cons.mp hpr' with he | hmm
        · rw [he]; exact hB
        · exact h2 pr' hmm

lemma runPairs_total (df2 : BudgetTable) :
    ∀ (L : List (String × String)) (t : FlightTable),
      (L ≠ [] → flightColsOK t) → (∀ pr ∈ L, budgetColsOK df2 pr.2) →
      runPairs df2 L t = Except.ok (applyPairs df2 L t) := by
  intro L
  induction L with
  | nil => intro t _ _; rfl
  | cons pr L ih =>
    intro t hF hB
    have hFt : flightColsOK t := hF (by simp)
    have hstep : processPair df2 t pr.1 pr.2 = Except.ok (applyPair df2 t pr) :=
      processPair_eq df2 t pr.1 pr.2 hFt (hB pr (List.mem_cons_self pr L))
    unfold runPairs
    rw [hstep, applyPairs_cons]
    exact ih (applyPair df2 t pr) (fun _ => flightColsOK_applyPair.mpr hFt)
      (fun pr' h' => hB pr' (List.mem_cons_of_mem pr h'))

/-- Membership in the loop's Cartesian product. -/
lemma mem_pairsOf {A B : List String} {pr : String × String} :
    pr ∈ pairsOf A B ↔ pr.1 ∈ A ∧ pr.2 ∈ B := by
  obtain ⟨p, d⟩ := pr
  unfold pairsOf
  simp

/-- The loop's Cartesian product is the standard list product. -/
lemma pairsOf_eq_product (A B : List String) : pairsOf A B = A.product B := rfl

lemma pairsOf_nodup {A B : List String} (hA : A.Nodup) (hB : B.Nodup) :
    (pairsOf A B).Nodup := by
  rw [pairsOf_eq_product]
  exact hA.product hB

lemma pairsOf_perm {A A' B B' : List String} (h1 : A.Perm A') (h2 : B.Perm B') :
    (pairsOf A B).Perm (pairsOf A' B') := by
  rw [pairsOf_eq_product, pairsOf_eq_product]
  exact h1.product h2

/-- Reading an index of a mapped list through a propositional equality. -/
lemma get_map_of_eq {α β : Type} {l : List α} {l' : List β} {g : α → β}
    (he : l' = l.map g) (i : ℕ) (hi : i < l.length) (hi' : i < l'.length) :
    l'.get ⟨i, hi'⟩ = g (l.get ⟨i, hi⟩) := by
  subst he
  simp

lemma beq_nan_fin (q : ℚ) : (PyFloat.fin q == PyFloat.nan) = false := by
  rw [beq_eq_false_iff_ne]
  simp

lemma neq_nan_beq {x : PyFloat} (h : x ≠ PyFloat.nan) : (x == PyFloat.nan) = false :=
  beq_eq_false_iff_ne.mpr h

/-- C3 (amended): with the three columns present, get_num_flights returns
the number of matching rows whose Budget is non-null (not the raw number
of matching rows), and returns 0 when no row matches; the embedding is a
pure function of its arguments, so the inputs are not modified. -/
theorem claim3_count_amended (t : FlightTable) (p d : String) (h : flightColsOK t) :
    get_num_flights t p d = Except.ok
      (t.rows.countP (fun r => flightMatches r p d && !(r.budget == PyFloat.nan))) ∧
    ((∀ r ∈ t.rows, flightMatches r p d = false) →
      get_num_flights t p d = Except.ok 0) := by
  constructor
  · exact get_num_flights_eq h p d
  · intro hnone
    rw [get_num_flights_eq h p d]
    have hz : countMatchingNonNull t p d = 0 := by
      unfold countMatchingNonNull
      rw [List.countP_eq_zero]
      intro a ha
      simp [hnone a ha]
    rw [hz]

/-- C3 counterexample: a table whose single row matches (P1, D1) but has a
null Budget; get_num_flights returns 0 while one row matches, so it does
not return the number of matching rows. -/
theorem claim3_count_counterexample :
    get_num_flights flightsNullOnly "P1" "D1" = Except.ok 0 ∧
    flightsNullOnly.rows.countP (fun r => flightMatches r "P1" "D1") = 1 := by
  exact ⟨by with_unfolding_all rfl, by with_unfolding_all rfl⟩

/-- Witness for claim3_count_amended at a concrete table. -/
theorem claim3_count_amended_witness :
    flightColsOK flightsNullOnly ∧
    get_num_flights flightsNullOnly "P1" "D1" = Except.ok
      (flightsNullOnly.rows.countP
        (fun r => flightMatches r "P1" "D1" && !(r.budget == PyFloat.nan))) :=
  ⟨⟨by decide, by decide, by decide⟩,
   (claim3_count_amended flightsNullOnly "P1" "D1" ⟨by decide, by decide, by decide⟩).1⟩

/-- C4: with the dynamic columns present, get_budget returns the sum of
the Values column over the rows matching the package and the header
marker, and returns 0 when no rows match — an absent pair is not a
failure. -/
theorem claim4_aggregate_budget (df2 : BudgetTable) (p d : String)
    (h : budgetColsOK df2 d) :
    get_budget df2 p d = Except.ok
      (((df2.rows.filter (fun r => budgetRowMatches r p d)).filterMap
        (fun r => r.values d)).sum) ∧
    ((∀ r ∈ df2.rows, budgetRowMatches r p d = false) →
      get_budget df2 p d = Except.ok 0) := by
  constructor
  · exact get_budget_eq h p
  · intro hnone
    rw [get_budget_eq h p]
    have hnil : df2.rows.filter (fun r => budgetRowMatches r p d) = [] :=
      List.filter_eq_nil_iff.mpr (fun a ha => by simp [hnone a ha])
    unfold sumMatchingValues
    rw [hnil]
    rfl

/-- Witness for claim4_aggregate_budget at a concrete table. -/
theorem claim4_aggregate_budget_witness :
    budgetColsOK sampleBudgetTable "D1" ∧
    get_budget sampleBudgetTable "P1" "D1" = Except.ok
      (((sampleBudgetTable.rows.filter (fun r => budgetRowMatches r "P1" "D1")).filterMap
        (fun r => r.values "D1")).sum) :=
  ⟨⟨by decide, by decide, by decide⟩,
   (claim4_aggregate_budget sampleBudgetTable "P1" "D1"
     ⟨by decide, by decide, by decide⟩).1⟩

/-- C9: get_num_flights counts only matching rows with a non-null Budget:
the count never exceeds the number of matching rows, and on a table whose
only matching row has a null Budget it returns 0 while one row matches,
so the divisor used by update_budgets can differ from the matching row
count. -/
theorem claim9_count_nonnull :
    (∀ (t : FlightTable) (p d : String),
      countMatchingNonNull t p d ≤ t.rows.countP (fun r => flightMatches r p d)) ∧
    get_num_flights flightsNullOnly "P1" "D1" = Except.ok 0 ∧
    flightsNullOnly.rows.countP (fun r => flightMatches r "P1" "D1") = 1 := by
  refine ⟨?_, by with_unfolding_all rfl, by with_unfolding_all rfl⟩
  intro t p d
  unfold countMatchingNonNull
  apply List.countP_mono_left
  intro r hr hp
  simp only [Bool.and_eq_true] at hp
  exact hp.1

/-- C6: a successful reallocation preserves the column list and the row
count, leaves every non-Budget field of every row unchanged, and leaves
the Budget of any row whose key is not among the processed (package,
start_date) pairs unchanged. -/
theorem claim6_frame (df1 : FlightTable) (df2 : BudgetTable) (ps ds : List String)
    (out : FlightTable) (h : update_budgets df1 df2 ps ds = Except.ok out) :
    out.cols = df1.cols ∧ out.rows.length = df1.rows.length ∧
    ∀ (i : ℕ) (hi : i < df1.rows.length) (hi2 : i < out.rows.length),
      (out.rows.get ⟨i, hi2⟩).packageName = (df1.rows.get ⟨i, hi⟩).packageName ∧
      (out.rows.get ⟨i, hi2⟩).startDate = (df1.rows.get ⟨i, hi⟩).startDate ∧
      (out.rows.get ⟨i, hi2⟩).other = (df1.rows.get ⟨i, hi⟩).other ∧
      ((∀ p ∈ ps, ∀ d ∈ ds, flightMatches (df1.rows.get ⟨i, hi⟩) p d = false) →
        (out.rows.get ⟨i, hi2⟩).budget = (df1.rows.get ⟨i, hi⟩).budget) := by
  obtain ⟨hout, hB, hF⟩ := runPairs_ok_inv df2 (pairsOf ps.dedup ds.dedup) df1 out h
  have hnd : (pairsOf ps.dedup ds.dedup).Nodup :=
    pairsOf_nodup (List.nodup_dedup ps) (List.nodup_dedup ds)
  obtain ⟨g, hrows, hshape, hun, _⟩ :=
    applyPairs_spec df2 (pairsOf ps.dedup ds.dedup) df1 hnd
  have hrows2 : out.rows = df1.rows.map g := by rw [hout]; exact hrows
  refine ⟨by rw [hout]; exact applyPairs_cols df2 _ df1,
    by rw [hrows2, List.length_map], ?_⟩
  intro i hi hi2
  have hget := get_map_of_eq hrows2 i hi hi2
  refine ⟨by rw [hget]; exact (hshape _).1, by rw [hget]; exact (hshape _).2.1,
    by rw [hget]; exact (hshape _).2.2, ?_⟩
  intro hnone
  rw [hget]
  apply hun
  intro pr hpr
  rw [mem_pairsOf] at hpr
  exact hnone pr.1 (List.mem_dedup.mp hpr.1) pr.2 (List.mem_dedup.mp hpr.2)

/-- Witness for claim6_frame at a concrete run. -/
theorem claim6_frame_witness :
    update_budgets flightsTwoOneNull sampleBudgetTable ["P1"] ["D1"] =
      Except.ok outReallocOnce ∧
    outReallocOnce.cols = flightsTwoOneNull.cols ∧
    outReallocOnce.rows.length = flightsTwoOneNull.rows.length :=
  ⟨by with_unfolding_all rfl,
   (claim6_frame flightsTwoOneNull sampleBudgetTable ["P1"] ["D1"] outReallocOnce
     (by with_unfolding_all rfl)).1,
   (claim6_frame flightsTwoOneNull sampleBudgetTable ["P1"] ["D1"] outReallocOnce
     (by with_unfolding_all rfl)).2.1⟩

/-- C1 (amended): after a successful reallocation, every row matching a
processed pair (p, d) holds the identical Budget value equal to the
pair's aggregate budget divided by the number of matching rows with
non-null Budget (the value get_num_flights computes on the input table),
provided that count is positive. -/
theorem claim1_group_budget_amended (df1 : FlightTable) (df2 : BudgetTable)
    (ps ds : List String) (out : FlightTable) (p d : String)
    (h : update_budgets df1 df2 ps ds = Except.ok out)
    (hp : p ∈ ps) (hd : d ∈ ds) (hn : 0 < countMatchingNonNull df1 p d) :
    ∀ (i : ℕ) (hi : i < df1.rows.length) (hi2 : i < out.rows.length),
      flightMatches (df1.rows.get ⟨i, hi⟩) p d = true →
      (out.rows.get ⟨i, hi2⟩).budget =
        PyFloat.fin (sumMatchingValues df2 p d / (countMatchingNonNull df1 p d : ℚ)) := by
  obtain ⟨hout, _, _⟩ := runPairs_ok_inv df2 (pairsOf ps.dedup ds.dedup) df1 out h
  have hnd : (pairsOf ps.dedup ds.dedup).Nodup :=
    pairsOf_nodup (List.nodup_dedup ps) (List.nodup_dedup ds)
  obtain ⟨g, hrows, _, _, hm⟩ :=
    applyPairs_spec df2 (pairsOf ps.dedup ds.dedup) df1 hnd
  have hrows2 : out.rows = df1.rows.map g := by rw [hout]; exact hrows
  intro i hi hi2 hmatch
  rw [get_map_of_eq hrows2 i hi hi2,
    hm _ p d hmatch (mem_pairsOf.mpr ⟨List.mem_dedup.mpr hp, List.mem_dedup.mpr hd⟩)]
  unfold pyDivNat
  rw [if_neg (Nat.pos_iff_ne_zero.mp hn)]

/-- C1 counterexample: two rows match (P1, D1) and the aggregate is 100,
yet after reallocation the rows hold 100, not 100 / 2: the divisor is the
non-null count 1, not the matching row count 2. -/
theorem claim1_group_budget_eq_counterexample :
    update_budgets flightsTwoOneNull sampleBudgetTable ["P1"] ["D1"] =
      Except.ok outReallocOnce ∧
    flightsTwoOneNull.rows.countP (fun r => flightMatches r "P1" "D1") = 2 ∧
    sumMatchingValues sampleBudgetTable "P1" "D1" = 100 ∧
    (outReallocOnce.rows.get ⟨0, by decide⟩).budget = PyFloat.fin 100 ∧
    PyFloat.fin 100 ≠ PyFloat.fin ((100 : ℚ) / 2) := by
  refine ⟨by with_unfolding_all rfl, by with_unfolding_all rfl,
    by with_unfolding_all rfl, rfl, by with_unfolding_all decide⟩

/-- Witness for claim1_group_budget_amended at a concrete run. -/
theorem claim1_group_budget_amended_witness :
    update_budgets flightsSingle sampleBudgetTable ["P1"] ["D1"] = Except.ok outSingle ∧
    0 < countMatchingNonNull flightsSingle "P1" "D1" ∧
    flightMatches (flightsSingle.rows.get ⟨0, by decide⟩) "P1" "D1" = true ∧
    (outSingle.rows.get ⟨0, by decide⟩).budget =
      PyFloat.fin (sumMatchingValues sampleBudgetTable "P1" "D1" /
        (countMatchingNonNull flightsSingle "P1" "D1" : ℚ)) :=
  ⟨by with_unfolding_all rfl, by decide, by decide,
   claim1_group_budget_amended flightsSingle sampleBudgetTable ["P1"] ["D1"] outSingle
     "P1" "D1" (by with_unfolding_all rfl) (by decide) (by decide) (by decide)
     0 (by decide) (by decide) (by decide)⟩

/-- C2 (amended): a processed pair with zero counted flights does not make
update_budgets fail: with all required columns present the run returns
normally, the division produces a non-finite sentinel (NaN or a signed
infinity, never a finite value), and every row matching the pair — all of
which have null Budget — receives that sentinel. -/
theorem claim2_zero_count_sentinel (df1 : FlightTable) (df2 : BudgetTable)
    (ps ds : List String) (p d : String)
    (hF : flightColsOK df1) (hB : ∀ d2 ∈ ds.dedup, budgetColsOK df2 d2)
    (hp : p ∈ ps) (hd : d ∈ ds) (hn : countMatchingNonNull df1 p d = 0) :
    ∃ out, update_budgets df1 df2 ps ds = Except.ok out ∧
      (∀ q : ℚ, pyDivNat (sumMatchingValues df2 p d) 0 ≠ PyFloat.fin q) ∧
      ∀ (i : ℕ) (hi : i < df1.rows.length) (hi2 : i < out.rows.length),
        flightMatches (df1.rows.get ⟨i, hi⟩) p d = true →
        (out.rows.get ⟨i, hi2⟩).budget = pyDivNat (sumMatchingValues df2 p d) 0 := by
  have htot := runPairs_total df2 (pairsOf ps.dedup ds.dedup) df1 (fun _ => hF)
    (fun pr hpr => hB pr.2 (mem_pairsOf.mp hpr).2)
  refine ⟨applyPairs df2 (pairsOf ps.dedup ds.dedup) df1, htot, ?_, ?_⟩
  · intro q
    unfold pyDivNat
    rw [if_pos rfl]
    split_ifs <;> simp
  · have hnd : (pairsOf ps.dedup ds.dedup).Nodup :=
      pairsOf_nodup (List.nodup_dedup ps) (List.nodup_dedup ds)
    obtain ⟨g, hrows, _, _, hm⟩ :=
      applyPairs_spec df2 (pairsOf ps.dedup ds.dedup) df1 hnd
    intro i hi hi2 hmatch
    rw [get_map_of_eq hrows i hi hi2,
      hm _ p d hmatch (mem_pairsOf.mpr ⟨List.mem_dedup.mpr hp, List.mem_dedup.mpr hd⟩), hn]

/-- C2 counterexample: the pair (P2, D1) has zero counted flights, yet
update_budgets returns normally and writes the +infinity sentinel into
the table instead of raising a division error. -/
theorem claim2_divzero_counterexample :
    get_num_flights flightsP2Null "P2" "D1" = Except.ok 0 ∧
    update_budgets flightsP2Null budgetTableP2 ["P2"] ["D1"] = Except.ok outP2Inf ∧
    (outP2Inf.rows.get ⟨0, by decide⟩).budget = PyFloat.inf := by
  refine ⟨by with_unfolding_all rfl, by with_unfolding_all rfl, rfl⟩

/-- Witness for claim2_zero_count_sentinel at a concrete run. -/
theorem claim2_zero_count_sentinel_witness :
    countMatchingNonNull flightsP2Null "P2" "D1" = 0 ∧
    ∃ out, update_budgets flightsP2Null budgetTableP2 ["P2"] ["D1"] = Except.ok out ∧
      (∀ q : ℚ, pyDivNat (sumMatchingValues budgetTableP2 "P2" "D1") 0 ≠ PyFloat.fin q) ∧
      ∀ (i : ℕ) (hi : i < flightsP2Null.rows.length) (hi2 : i < out.rows.length),
        flightMatches (flightsP2Null.rows.get ⟨i, hi⟩) "P2" "D1" = true →
        (out.rows.get ⟨i, hi2⟩).budget =
          pyDivNat (sumMatchingValues budgetTableP2 "P2" "D1") 0 :=
  ⟨by decide,
   claim2_zero_count_sentinel flightsP2Null budgetTableP2 ["P2"] ["D1"] "P2" "D1"
     ⟨by decide, by decide, by decide⟩
     (fun d2 hd2 => by
        have he : List.dedup ["D1"] = ["D1"] := by with_unfolding_all rfl
        rw [he] at hd2
        rw [List.mem_singleton.mp hd2]
        exact ⟨by decide, by decide, by decide⟩)
     (by decide) (by decide) (by decide)⟩

/-- C5 (amended): reallocation is idempotent on inputs where every row
matched by a processed pair has a non-null Budget: feeding the output
back in with the same arguments reproduces it exactly.  (Without that
proviso the non-null count can grow between runs and change the divisor;
see the counterexample.) -/
theorem claim5_idempotence_amended (df1 : FlightTable) (df2 : BudgetTable)
    (ps ds : List String) (out : FlightTable)
    (h : update_budgets df1 df2 ps ds = Except.ok out)
    (hclean : ∀ r ∈ df1.rows, (∃ p ∈ ps, ∃ d ∈ ds, flightMatches r p d = true) →
      r.budget ≠ PyFloat.nan) :
    update_budgets out df2 ps ds = Except.ok out := by
  obtain ⟨hout, hB, hF⟩ := runPairs_ok_inv df2 (pairsOf ps.dedup ds.dedup) df1 out h
  by_cases hLnil : pairsOf ps.dedup ds.dedup = []
  · show runPairs df2 (pairsOf ps.dedup ds.dedup) out = Except.ok out
    rw [hLnil]
    rfl
  · have hFdf1 : flightColsOK df1 := hF hLnil
    have hFout : flightColsOK out := by
      rw [hout]
      unfold flightColsOK
      rw [applyPairs_cols]
      exact hFdf1
    have htot := runPairs_total df2 (pairsOf ps.dedup ds.dedup) out (fun _ => hFout) hB
    show runPairs df2 (pairsOf ps.dedup ds.dedup) out = Except.ok out
    rw [htot]
    congr 1
    have hnd : (pairsOf ps.dedup ds.dedup).Nodup :=
      pairsOf_nodup (List.nodup_dedup ps) (List.nodup_dedup ds)
    obtain ⟨g, hrows, hshape, hun, hm⟩ :=
      applyPairs_spec df2 (pairsOf ps.dedup ds.dedup) df1 hnd
    obtain ⟨g2, hrows2, hshape2, hun2, hm2⟩ :=
      applyPairs_spec df2 (pairsOf ps.dedup ds.dedup) out hnd
    have houtrows : out.rows = df1.rows.map g := by rw [hout]; exact hrows
    apply flightTableExt
    · exact applyPairs_cols df2 _ out
    · rw [hrows2, houtrows, List.map_map]
      apply List.map_congr_left
      intro r hr
      show g2 (g r) = g r
      by_cases hmr : ∃ pr ∈ pairsOf ps.dedup ds.dedup, flightMatches r pr.1 pr.2 = true
      · obtain ⟨pr, hprL, hprm⟩ := hmr
        obtain ⟨p, d⟩ := pr
        have hpd1 : p ∈ ps := List.mem_dedup.mp (mem_pairsOf.mp hprL).1
        have hpd2 : d ∈ ds := List.mem_dedup.mp (mem_pairsOf.mp hprL).2
        have hrnb : r.budget ≠ PyFloat.nan := hclean r hr ⟨p, hpd1, d, hpd2, hprm⟩
        have hnpos : 0 < countMatchingNonNull df1 p d := by
          unfold countMatchingNonNull
          rw [List.countP_pos_iff]
          exact ⟨r, hr, by simp [hprm, neq_nan_beq hrnb]⟩
        have hnz : countMatchingNonNull df1 p d ≠ 0 := Nat.pos_iff_ne_zero.mp hnpos
        have hgval : (g r).budget = PyFloat.fin (sumMatchingValues df2 p d /
            (countMatchingNonNull df1 p d : ℚ)) := by
          rw [hm r p d hprm hprL]
          unfold pyDivNat
          rw [if_neg hnz]
        have hcnt : countMatchingNonNull out p d = countMatchingNonNull df1 p d := by
          unfold countMatchingNonNull
          rw [houtrows, List.countP_map]
          apply List.countP_congr
          intro a ha
          cases hma : flightMatches a p d with
          | false =>
            simp [Function.comp, flightMatches_congr (hshape a).1 (hshape a).2.1, hma]
          | true =>
            have hanb : a.budget ≠ PyFloat.nan := hclean a ha ⟨p, hpd1, d, hpd2, hma⟩
            have hgab : (g a).budget = PyFloat.fin (sumMatchingValues df2 p d /
                (countMatchingNonNull df1 p d : ℚ)) := by
              rw [hm a p d hma hprL]
              unfold pyDivNat
              rw [if_neg hnz]
            simp [Function.comp, flightMatches_congr (hshape a).1 (hshape a).2.1, hma,
              hgab, beq_nan_fin, neq_nan_beq hanb]
        have hgm : flightMatches (g r) p d = true := by
          rw [flightMatches_congr (hshape r).1 (hshape r).2.1]
          exact hprm
        apply flightRowExt
        · exact (hshape2 (g r)).1
        · exact (hshape2 (g r)).2.1
        · rw [hm2 (g r) p d hgm hprL, hcnt, hgval]
          unfold pyDivNat
          rw [if_neg hnz]
        · exact (hshape2 (g r)).2.2
      · push_neg at hmr
        have hall : ∀ pr ∈ pairsOf ps.dedup ds.dedup,
            flightMatches r pr.1 pr.2 = false := by
          intro pr hpr
          cases hc : flightMatches r pr.1 pr.2
          · rfl
          · exact absurd hc (hmr pr hpr)
        have hallg : ∀ pr ∈ pairsOf ps.dedup ds.dedup,
            flightMatches (g r) pr.1 pr.2 = false := by
          intro pr hpr
          rw [flightMatches_congr (hshape r).1 (hshape r).2.1]
          exact hall pr hpr
        apply flightRowExt
        · exact (hshape2 (g r)).1
        · exact (hshape2 (g r)).2.1
        · rw [hun2 (g r) hallg, hun r hall]
        · exact (hshape2 (g r)).2.2

/-- C5 counterexample: a run succeeds on a table with a null-Budget row in
the processed group; running again on the output halves the budgets (the
divisor grows from 1 to 2), so twice is not once. -/
theorem claim5_idempotence_counterexample :
    update_budgets flightsTwoOneNull sampleBudgetTable ["P1"] ["D1"] =
      Except.ok outReallocOnce ∧
    update_budgets outReallocOnce sampleBudgetTable ["P1"] ["D1"] =
      Except.ok outReallocTwice ∧
    outReallocTwice ≠ outReallocOnce := by
  refine ⟨by with_unfolding_all rfl, by with_unfolding_all rfl,
    by with_unfolding_all decide⟩

/-- Witness for claim5_idempotence_amended at a concrete run. -/
theorem claim5_idempotence_amended_witness :
    update_budgets flightsSingle sampleBudgetTable ["P1"] ["D1"] = Except.ok outSingle ∧
    update_budgets outSingle sampleBudgetTable ["P1"] ["D1"] = Except.ok outSingle :=
  ⟨by with_unfolding_all rfl,
   claim5_idempotence_amended flightsSingle sampleBudgetTable ["P1"] ["D1"] outSingle
     (by with_unfolding_all rfl)
     (fun r hr _ => by
        have he : r = ⟨"P1", "D1", PyFloat.fin 0, "a"⟩ := by
          simpa [flightsSingle] using hr
        rw [he]
        simp)⟩

/-- C7: update_budgets returns the same value when handed the
duplicate-free identifier lists, and any inputs whose distinct value sets
agree (as permutations, so in any iteration order) that succeed produce
the same output table. -/
theorem claim7_dedup_order (df1 : FlightTable) (df2 : BudgetTable)
    (ps ds : List String) :
    update_budgets df1 df2 ps ds = update_budgets df1 df2 ps.dedup ds.dedup ∧
    ∀ (ps2 ds2 : List String) (out : FlightTable),
      ps2.dedup.Perm ps.dedup → ds2.dedup.Perm ds.dedup →
      update_budgets df1 df2 ps ds = Except.ok out →
      update_budgets df1 df2 ps2 ds2 = Except.ok out := by
  constructor
  · show runPairs df2 (pairsOf ps.dedup ds.dedup) df1 =
      runPairs df2 (pairsOf ps.dedup.dedup ds.dedup.dedup) df1
    rw [List.dedup_idem, List.dedup_idem]
  · intro ps2 ds2 out hp hd h
    obtain ⟨hout, hB, hF⟩ := runPairs_ok_inv df2 (pairsOf ps.dedup ds.dedup) df1 out h
    have hperm : (pairsOf ps2.dedup ds2.dedup).Perm (pairsOf ps.dedup ds.dedup) :=
      pairsOf_perm hp hd
    have hF2 : pairsOf ps2.dedup ds2.dedup ≠ [] → flightColsOK df1 :=
      fun hne => hF (fun hnil => hne (List.Perm.eq_nil (hnil ▸ hperm)))
    have hB2 : ∀ pr ∈ pairsOf ps2.dedup ds2.dedup, budgetColsOK df2 pr.2 :=
      fun pr hpr => hB pr (hperm.mem_iff.mp hpr)
    have htot := runPairs_total df2 (pairsOf ps2.dedup ds2.dedup) df1 hF2 hB2
    show runPairs df2 (pairsOf ps2.dedup ds2.dedup) df1 = Except.ok out
    rw [htot, applyPairs_perm df2 hperm df1, ← hout]

/-- Witness for claim7_dedup_order at concrete lists with a duplicate. -/
theorem claim7_dedup_order_witness :
    (["P1", "P1"].dedup).Perm (["P1"].dedup) ∧
    update_budgets flightsSingle sampleBudgetTable ["P1"] ["D1"] = Except.ok outSingle ∧
    update_budgets flightsSingle sampleBudgetTable ["P1", "P1"] ["D1"] =
      Except.ok outSingle :=
  ⟨by with_unfolding_all decide,
   by with_unfolding_all rfl,
   (claim7_dedup_order flightsSingle sampleBudgetTable ["P1"] ["D1"]).2
     ["P1", "P1"] ["D1"] outSingle (by with_unfolding_all decide)
     (by with_unfolding_all decide) (by with_unfolding_all rfl)⟩

/-- C8 (amended): get_num_flights and get_budget raise KeyError naming a
missing required column whenever one is absent, and
update_flight_level_budgets raises when a mask column (Package Name,
Start Date) is missing — but a missing Budget column does not make it
raise: the assignment creates the column (pandas setting-with-enlargement)
and returns a table. -/
theorem claim8_missing_column_amended :
    (∀ (t : FlightTable) (p d : String),
      ("Package Name" ∉ t.cols ∨ "Start Date" ∉ t.cols ∨ "Budget" ∉ t.cols) →
      ∃ c, get_num_flights t p d = Except.error (PyError.keyError c) ∧ c ∉ t.cols) ∧
    (∀ (df2 : BudgetTable) (p d : String),
      ("Package Name" ∉ df2.cols ∨ ("Header_" ++ d) ∉ df2.cols ∨
        ("Values_" ++ d) ∉ df2.cols) →
      ∃ c, get_budget df2 p d = Except.error (PyError.keyError c) ∧ c ∉ df2.cols) ∧
    (∀ (t : FlightTable) (p d : String) (v : PyFloat),
      ("Package Name" ∉ t.cols ∨ "Start Date" ∉ t.cols) →
      ∃ c, update_flight_level_budgets t p d v = Except.error (PyError.keyError c) ∧
        c ∉ t.cols) ∧
    (∀ (t : FlightTable) (p d : String) (v : PyFloat),
      "Package Name" ∈ t.cols → "Start Date" ∈ t.cols → "Budget" ∉ t.cols →
      ∃ t2, update_flight_level_budgets t p d v = Except.ok t2 ∧
        t2.cols = t.cols ++ ["Budget"]) := by
  refine ⟨?_, ?_, ?_, ?_⟩
  · intro t p d hor
    by_cases h1 : "Package Name" ∈ t.cols
    · by_cases h2 : "Start Date" ∈ t.cols
      · have h3 : "Budget" ∉ t.cols := by
          rcases hor with h | h | h
          · exact absurd h1 h
          · exact absurd h2 h
          · exact h
        exact ⟨"Budget",
          (by unfold get_num_flights; rw [if_pos h1, if_pos h2, if_neg h3]), h3⟩
      · exact ⟨"Start Date",
          (by unfold get_num_flights; rw [if_pos h1, if_neg h2]), h2⟩
    · exact ⟨"Package Name", (by unfold get_num_flights; rw [if_neg h1]), h1⟩
  · intro df2 p d hor
    by_cases h1 : "Package Name" ∈ df2.cols
    · by_cases h2 : ("Header_" ++ d) ∈ df2.cols
      · have h3 : ("Values_" ++ d) ∉ df2.cols := by
          rcases hor with h | h | h
          · exact absurd h1 h
          · exact absurd h2 h
          · exact h
        exact ⟨"Values_" ++ d,
          (by unfold get_budget; rw [if_pos h1, if_pos h2, if_neg h3]), h3⟩
      · exact ⟨"Header_" ++ d,
          (by unfold get_budget; rw [if_pos h1, if_neg h2]), h2⟩
    · exact ⟨"Package Name", (by unfold get_budget; rw [if_neg h1]), h1⟩
  · intro t p d v hor
    by_cases h1 : "Package Name" ∈ t.cols
    · have h2 : "Start Date" ∉ t.cols := by
        rcases hor with h | h
        · exact absurd h1 h
        · exact h
      exact ⟨"Start Date",
        (by unfold update_flight_level_budgets; rw [if_pos h1, if_neg h2]), h2⟩
    · exact ⟨"Package Name",
        (by unfold update_flight_level_budgets; rw [if_neg h1]), h1⟩
  · intro t p d v h1 h2 h3
    exact ⟨_,
      (by unfold update_flight_level_budgets; rw [if_pos h1, if_pos h2, if_neg h3]),
      rfl⟩

/-- C8 counterexample: with only the mask columns present,
update_flight_level_budgets returns an (enlarged) table instead of
raising an error for the absent Budget column. -/
theorem claim8_missing_column_counterexample :
    "Budget" ∉ flightsNoBudgetCol.cols ∧
    update_flight_level_budgets flightsNoBudgetCol "P1" "D1" (PyFloat.fin 5) =
      Except.ok flightsNoBudgetColOut :=
  ⟨by decide, by with_unfolding_all rfl⟩

/-- Witness for claim8_missing_column_amended at concrete tables. -/
theorem claim8_missing_column_amended_witness :
    "Budget" ∉ flightsNoBudgetCol.cols ∧
    (∃ c, get_num_flights flightsNoBudgetCol "P1" "D1" =
        Except.error (PyError.keyError c) ∧ c ∉ flightsNoBudgetCol.cols) ∧
    (∃ t2, update_flight_level_budgets flightsNoBudgetCol "P1" "D1" (PyFloat.fin 5) =
        Except.ok t2 ∧ t2.cols = flightsNoBudgetCol.cols ++ ["Budget"]) :=
  ⟨by decide,
   claim8_missing_column_amended.1 flightsNoBudgetCol "P1" "D1"
     (Or.inr (Or.inr (by decide))),
   claim8_missing_column_amended.2.2.2 flightsNoBudgetCol "P1" "D1" (PyFloat.fin 5)
     (by decide) (by decide) (by decide)⟩

/-- C10 counterexample: the string "-5" contains a hyphen, survives the
regex stripping unchanged, and is converted to the number -5, not to
NaN. -/
theorem claim10_regex_counterexample :
    ('-' ∈ "-5".data) ∧ clean_and_convert_budgets ["-5"] = [some (-5 : ℚ)] :=
  ⟨by decide, by with_unfolding_all rfl⟩

/-- C10 (amended): the character class of the regex contains the range
from '$' to ',', so stripping removes whitespace and the characters
$ % & apostrophe ( ) * + , but leaves the hyphen; a hyphen survives into
the converted string, and the numeric conversion coerces the result to
NaN only when the stripped string is not a numeric literal — "1-2"
becomes NaN while "-5" parses as the number -5. -/
theorem claim10_regex_amended :
    (∀ c ∈ ['$', '%', '&', Char.ofNat 39, '(', ')', '*', '+', ','],
      cleanBudgetString (String.mk [c]) = "") ∧
    (∀ c ∈ [' ', '\t', '\n', '\r'], cleanBudgetString (String.mk [c]) = "") ∧
    cleanBudgetString "-" = "-" ∧
    (∀ s : String, '-' ∈ s.data → '-' ∈ (cleanBudgetString s).data) ∧
    clean_and_convert_budgets ["$1,000", "1-2", "-5"] =
      [some 1000, none, some (-5 : ℚ)] := by
  refine ⟨by decide, by decide, by decide, ?_, by with_unfolding_all rfl⟩
  intro s h
  unfold cleanBudgetString
  rw [List.mem_filter]
  exact ⟨h, by decide⟩

/-- Witness for claim10_regex_amended: the hyphen of a concrete cell
survives stripping. -/
theorem claim10_regex_amended_witness :
    ('-' ∈ "$-5".data) ∧ '-' ∈ (cleanBudgetString "$-5").data :=
  ⟨by decide, claim10_regex_amended.2.2.2.1 "$-5" (by decide)⟩

end AdOps
